import Mathlib

/-!
Shallow embedding of the HSDB SQL parser (src/parser/table.go together
with the step enumeration of src/parser/step.go and the data types of
src/parser/data_type.go).

Modelling conventions: Go strings become lists of characters and byte
offsets become character offsets (the two agree on ASCII input, which is
all the fixed vocabulary consists of); Go zero values become Lean default
field values; the Go map used for UPDATE assignments becomes an
association list updated in place; the unbounded `for` loop of `doParse`
becomes a fuel-indexed interpreter (`none` means the loop has not
returned within the given fuel); out-of-range slice indexing, which
panics in Go and is unreachable along parser traces, is modelled by
total list accessors with default values.
-/

namespace HSDB

abbrev Str := List Char

def quoteChar : Char := Char.ofNat 39

def backslashChar : Char := Char.ofNat 92

/-- The character classes trimmed by Go strings.TrimSpace. -/
def isGoSpace (c : Char) : Bool :=
  c = Char.ofNat 32 || c = Char.ofNat 9 || c = Char.ofNat 10 || c = Char.ofNat 11 ||
  c = Char.ofNat 12 || c = Char.ofNat 13 || c = Char.ofNat 133 || c = Char.ofNat 160

def trimSpace (s : Str) : Str :=
  ((s.dropWhile isGoSpace).reverse.dropWhile isGoSpace).reverse

def toUpperStr (s : Str) : Str := s.map Char.toUpper

/-- Go slice expression s[a:b] (for a less-or-equal b less-or-equal length). -/
def slice (s : Str) (a b : Nat) : Str := (s.drop a).take (b - a)

/-- The fixed vocabulary of table.go, in source order (variable legalWords). -/
def legalWords : List Str :=
  [ "(".toList,
    ")".toList,
    ">=".toList,
    "<=".toList,
    "!=".toList,
    ",".toList,
    "=".toList,
    ">".toList,
    "<".toList,
    "SELECT".toList,
    "INSERT INTO".toList,
    "VALUES".toList,
    "UPDATE".toList,
    "SET".toList,
    "DELETE FROM".toList,
    "CREATE TABLE".toList,
    "CREATE VIEW".toList,
    "CREATE INDEX".toList,
    "CREATE USER".toList,
    "CHECK".toList,
    "WHERE".toList,
    "FROM".toList,
    "AND".toList,
    "IN".toList,
    "NOT IN".toList,
    "LIKE".toList,
    "NOT LIKE".toList,
    "GROUP BY".toList,
    "ORDER BY".toList,
    "HAVING".toList,
    "BETWEEN".toList,
    "NOT BETWEEN".toList,
    "IDENTIFIED BY".toList,
    "ON TABLE".toList,
    "TO".toList,
    "GRANT".toList,
    "REVOKE".toList,
    "NOT NULL".toList,
    "UNIQUE".toList,
    "PRIMARY KEY".toList,
    "FOREIGN KEY".toList,
    "REFERENCES".toList ]

/-- The first-match scan over the vocabulary inside peekWithLength. -/
def scanWords (sql : Str) (pos : Nat) : List Str → Option (Str × Nat)
  | [] => none
  | lw :: rest =>
    let token := toUpperStr (slice sql pos (Nat.min sql.length (pos + lw.length)))
    if token = lw then some (token, token.length) else scanWords sql pos rest

/-- The scan of peekQuotedStringWithLength for an unescaped closing
quote: prev is the character before the current one (initially the
opening quote) and i the absolute index of the current character.  This
walks the remaining characters structurally; it visits the same indices
as the Go loop `for i := position + 1; i < len; i++`. -/
def findCloseQuoteAux : Char → List Char → Nat → Option Nat
  | _, [], _ => none
  | prev, c :: rest, i =>
    if c = quoteChar ∧ prev ≠ backslashChar then some i
    else findCloseQuoteAux c rest (i + 1)

/-- peekQuotedStringWithLength of table.go: the token value excludes the
delimiting quotes and the consumed length includes both of them; an
unterminated literal yields the empty token with length zero. -/
def peekQuotedStringWithLength (sql : Str) (pos : Nat) : Str × Nat :=
  if sql.length < pos ∨ sql.getD pos ' ' ≠ quoteChar then ([], 0)
  else match findCloseQuoteAux (sql.getD pos ' ') (sql.drop (pos + 1)) (pos + 1) with
    | some i => (slice sql (pos + 1) i, (slice sql (pos + 1) i).length + 2)
    | none => ([], 0)

/-- The character class of the regular expression [a-zA-Z0-9_*]. -/
def isWordChar (c : Char) : Bool := c.isAlpha || c.isDigit || c = '_' || c = '*'

/-- The end of the identifier scan of peekIdentifierWithLength: the Go
loop advances from pos while the character class holds, which is the
takeWhile of the remaining input. -/
def findIdentEnd (sql : Str) (pos : Nat) : Nat :=
  pos + ((sql.drop pos).takeWhile isWordChar).length

def peekIdentifierWithLength (sql : Str) (pos : Nat) : Str × Nat :=
  let e := findIdentEnd sql pos
  (slice sql pos e, (slice sql pos e).length)

/-- peekWithLength of table.go: first-match vocabulary scan, then quoted
literal, then identifier. -/
def peekWithLength (sql : Str) (pos : Nat) : Str × Nat :=
  if pos ≥ sql.length then ([], 0)
  else match scanWords sql pos legalWords with
    | some r => r
    | none =>
      if sql.getD pos ' ' = quoteChar then peekQuotedStringWithLength sql pos
      else peekIdentifierWithLength sql pos

/-- popWhitespace of table.go: advance past the run of space characters
starting at pos. -/
def popWhitespaceAux (sql : Str) (pos : Nat) : Nat :=
  pos + ((sql.drop pos).takeWhile (fun c => c = ' ')).length

/-- isIdentifier of table.go.  The regular expression
[a-zA-Z_][a-zA-Z_0-9]* is matched unanchored by Go regexp.MatchString,
so it holds exactly when some character of s is a letter or underscore. -/
def isIdentifier (s : Str) : Bool :=
  legalWords.all (fun lw => !(toUpperStr s == lw)) &&
  s.any (fun c => c.isAlpha || c = '_')

def isIdentifierOrAsterisk (s : Str) : Bool := isIdentifier s || s == "*".toList

def digitsToNat (ds : Str) : Nat := ds.foldl (fun acc c => acc * 10 + (c.toNat - 48)) 0

/-- Go strconv.ParseInt(s, 10, 64): optional sign, a nonempty run of
decimal digits, and a 64-bit signed range check. -/
def parseInt64 (s : Str) : Option Int :=
  let signDigits : Int × Str :=
    match s with
    | c :: rest => if c = '+' then (1, rest) else if c = '-' then (-1, rest) else (1, s)
    | [] => (1, [])
  let ds := signDigits.2
  if ds = [] then none
  else if ds.all Char.isDigit then
    let v : Int := signDigits.1 * (digitsToNat ds : Nat)
    if -(2 ^ 63) ≤ v ∧ v ≤ 2 ^ 63 - 1 then some v else none
  else none

/-! ## Data model (table.go and data_type.go) -/

/-- DataType of data_type.go. -/
inductive DataType
  | UnknownDataType
  | SmallInt
  | Double
  | DateTime
  | Varchar
deriving DecidableEq, Repr

/-- ConstraintType of table.go (first section). -/
inductive ConstraintType
  | UnknownConstraint
  | NotNull
  | Unique
  | PrimaryKey
  | Check
  | ForeignKey
  | Default
deriving DecidableEq, Repr

/-- Constraint of table.go. -/
structure Constraint where
  ConstraintType : ConstraintType
deriving DecidableEq, Repr

/-- Operator of table.go. -/
inductive Operator
  | UnknownOperator
  | Eq
  | Ne
  | Gt
  | Lt
  | Gte
  | Lte
  | Between
  | NotBetween
  | Like
  | NotLike
  | In
  | NotIn
deriving DecidableEq, Repr

/-- ConditionOperator of table.go. -/
inductive ConditionOperator
  | UnknownConditionOperator
  | And
  | Or
deriving DecidableEq, Repr

/-- Condition of table.go; defaults are the Go zero values. -/
structure Condition where
  Operand1 : Str := []
  Operand2 : Str := []
  Operator : Operator := .UnknownOperator
  Operand1IsField : Bool := false
  Operand2IsField : Bool := false
  IsBetween : Bool := false
  IsNotBetween : Bool := false
  BetweenOperand1 : Str := []
  BetweenOperand2 : Str := []
  IsIn : Bool := false
  IsNotIn : Bool := false
  InConditions : List Str := []
deriving DecidableEq, Repr

/-- Field of table.go; defaults are the Go zero values. -/
structure Field where
  Name : Str := []
  DataType : DataType := .UnknownDataType
  DataLength : Int := 0
  Constraint : List Constraint := []
  CheckConditions : List Condition := []
  CheckConditionsOperator : List ConditionOperator := []
  PrimaryKey : Bool := false
  NotNull : Bool := false
  Unique : Bool := false
  ForeignKey : Bool := false
  ForeignKeyFlag : Bool := false
  ForeignKeyReferenceTable : Str := []
  ForeignKeyReferenceField : Str := []
deriving DecidableEq, Repr

/-- The statement kind (the type named Type in table.go). -/
inductive SqlType
  | Unknown
  | Insert
  | Delete
  | Update
  | Select
  | CreateTable
  | CreateView
  | CreateIndex
  | CreateUser
  | Grant
  | Revoke
deriving DecidableEq, Repr

/-- Sql of table.go; the Updates map is an association list updated in
insertion order; defaults are the Go zero values.  The field named Type
in the source is called Typ here because Type is a Lean keyword. -/
structure Sql where
  Typ : SqlType := .Unknown
  Tables : List Str := []
  Conditions : List Condition := []
  Updates : List (Str × Str) := []
  Inserts : List (List Str) := []
  Fields : List Str := []
  CreateFields : List Field := []
  ConditionOperators : List ConditionOperator := []
  ViewSelect : Str := []
deriving DecidableEq, Repr

/-- The parser steps of step.go. -/
inductive Step
  | stepBeginning
  | stepSelectField
  | stepSelectComma
  | stepSelectFrom
  | stepSelectFromTable
  | stepSelectFromTableComma
  | stepSelectGroupBy
  | stepSelectHaving
  | stepSelectOrderBy
  | stepInsertTable
  | stepInsertFieldsOpeningParens
  | stepInsertFields
  | stepInsertFieldsCommaOrClosingParens
  | stepInsertValues
  | stepInsertValuesOpeningParens
  | stepInsertValue
  | stepInsertValuesCommaOrClosingParens
  | stepUpdateTable
  | stepUpdateSet
  | stepUpdateField
  | stepUpdateEqual
  | stepUpdateValue
  | stepUpdateComma
  | stepDeleteFromTable
  | stepWhere
  | stepWhereField
  | stepWhereOperator
  | stepWhereValue
  | stepWhereAnd
  | stepWhereOr
  | stepWhereBetween
  | stepWhereNotBetween
  | stepWhereBetweenValue
  | stepWhereBetweenAnd
  | stepWhereBetweenAndValue
  | stepWhereIn
  | stepWhereNotIn
  | stepWhereInOpeningParens
  | stepWhereInValue
  | stepWhereInCommaOrClosingParens
  | stepCreateTableName
  | stepCreateTableOpeningParens
  | stepCreateTableField
  | stepCreateTableFieldType
  | stepCreateTableFieldOpeningParens
  | stepCreateTableFieldLength
  | stepCreateTableFieldClosingParens
  | stepCreateTableComma
  | stepCreateTableConstraintType
  | stepCreateTableClosingParens
  | stepCheck
  | stepCheckOpeningParens
  | stepCheckField
  | stepCheckOperator
  | stepCheckValue
  | stepCheckClosingParens
  | stepCheckAnd
  | stepCheckOr
  | stepCheckIn
  | stepCheckInOpeningParens
  | stepCheckInValue
  | stepCheckInCommaOrClosingParens
  | stepPrimaryKey
  | stepPrimaryKeyOpeningParens
  | stepPrimaryKeyField
  | stepPrimaryKeyCommaOrClosingParens
  | stepForeignKey
  | stepForeignKeyOpeningParens
  | stepForeignKeyField
  | stepForeignKeyClosingParens
  | stepForeignKeyReference
  | stepForeignKeyReferenceTable
  | stepForeignKeyReferenceFieldOpeningParens
  | stepForeignKeyReferenceField
  | stepForeignKeyReferenceFieldClosingParens
  | stepCreateViewName
  | stepCreateViewOpeningParens
  | stepCreateViewField
  | stepCreateViewCommaOrClosingParens
  | stepCreateViewAs
  | stepCreateViewSelect
  | stepCreateIndexName
  | stepCreateIndexOn
  | stepCreateIndexTableName
  | stepCreateIndexOpeningParens
  | stepCreateIndexField
  | stepCreateIndexAscOrDesc
  | stepCreateIndexCommaOrClosingParens
  | stepCreateUserName
  | stepCreateUserIdentifiedBy
  | stepCreateUserPassword
  | stepGrantPrivilege
  | stepGrantPrivilegeOpeningParens
  | stepGrantPrivilegeField
  | stepGrantPrivilegeCommaOrClosingParens
  | stepGrantOnTable
  | stepGrantTableName
  | stepGrantTableComma
  | stepGrantTo
  | stepGrantUserName
  | stepGrantUserComma
  | stepRevokePrivilege
  | stepRevokeOpeningParens
  | stepRevokePrivilegeField
  | stepRevokePrivilegeCommaOrClosingParens
  | stepRevokeOnTable
  | stepRevokeTableName
  | stepRevokeFrom
  | stepRevokeUserName
  | stepRevokeUserComma
deriving DecidableEq, Repr

/-- The parser struct of table.go. -/
structure PState where
  sql : Str
  position : Nat := 0
  query : Sql := {}
  step : Step := .stepBeginning
  err : Option String := none
  nextUpdateField : Str := []
deriving DecidableEq, Repr

def PState.peek (p : PState) : Str := (peekWithLength p.sql p.position).1

/-- pop of table.go: advance past the peeked token and trailing spaces. -/
def PState.pop (p : PState) : PState :=
  { p with position := popWhitespaceAux p.sql (p.position + (peekWithLength p.sql p.position).2) }

/-- peekToEnd of table.go. -/
def PState.peekToEnd (p : PState) : Str := p.sql.drop p.position

/-- popToEnd of table.go. -/
def PState.popToEnd (p : PState) : PState :=
  { p with position := p.position + (p.sql.drop p.position).length }

/-! ## Go slice / map helpers used by the step bodies -/

/-- Mutation through a pointer to the last element of a Go slice; the
empty list is left unchanged (Go would panic, which is unreachable along
parser traces). -/
def updateLast (f : α → α) : List α → List α
  | [] => []
  | [a] => [f a]
  | a :: b :: rest => a :: updateLast f (b :: rest)

/-- Mutation through a pointer to the element at index i. -/
def modifyAt (f : α → α) : List α → Nat → List α
  | [], _ => []
  | a :: rest, 0 => f a :: rest
  | a :: rest, i + 1 => a :: modifyAt f rest i

/-- The index-scan of stepPrimaryKeyField / stepForeignKeyField: the last
index whose Name equals the given name. -/
def lastNameIdx (name : Str) : List Field → Option Nat
  | [] => none
  | f :: rest =>
    match lastNameIdx name rest with
    | some j => some (j + 1)
    | none => if f.Name = name then some 0 else none

/-- The index-scan of stepForeignKeyReferenceTable / Field: the last index
with ForeignKeyFlag set; like the Go loop variable i, it defaults to 0. -/
def lastFlagIdx : List Field → Option Nat
  | [] => none
  | f :: rest =>
    match lastFlagIdx rest with
    | some j => some (j + 1)
    | none => if f.ForeignKeyFlag then some 0 else none

/-- Go map assignment m[k] = v on the association list model. -/
def mapSet (k v : Str) : List (Str × Str) → List (Str × Str)
  | [] => [(k, v)]
  | (k', v') :: rest => if k' = k then (k, v) :: rest else (k', v') :: mapSet k v rest

def Sql.updateLastField (q : Sql) (f : Field → Field) : Sql :=
  { q with CreateFields := updateLast f q.CreateFields }

def Sql.updateLastCond (q : Sql) (f : Condition → Condition) : Sql :=
  { q with Conditions := updateLast f q.Conditions }

def Sql.updateLastCheckCond (q : Sql) (f : Condition → Condition) : Sql :=
  q.updateLastField (fun fld => { fld with CheckConditions := updateLast f fld.CheckConditions })

def PState.withQuery (p : PState) (q : Sql) : PState := { p with query := q }

def PState.withStep (p : PState) (s : Step) : PState := { p with step := s }

/-! ## The state machine (doParse of table.go) -/

/-- A single quote character as a string, for building error messages. -/
def apos : String := String.mk [quoteChar]

/-- Wraps a message fragment in single quotes, as the Go messages do. -/
def q1 (s : String) : String := apos ++ s ++ apos

/-- The outcome of one iteration of the doParse loop: either the loop
continues with an updated parser, or the function returns the (possibly
mutated) query together with an error. -/
inductive StepRes
  | next (st : PState)
  | fail (st : PState) (msg : String)
deriving DecidableEq, Repr

/-- One iteration of the body of the doParse switch of table.go,
transcribed case by case.  Steps that have no case in the Go switch fall
through to the catch-all arm, which (like Go) changes nothing. -/
def stepOnce (st : PState) : StepRes :=
  match st.step with
  | .stepBeginning =>
    let tok := toUpperStr st.peek
    if tok = "SELECT".toList then
      .next (((st.withQuery { st.query with Typ := .Select }).pop).withStep .stepSelectField)
    else if tok = "INSERT INTO".toList then
      .next (((st.withQuery { st.query with Typ := .Insert }).pop).withStep .stepInsertTable)
    else if tok = "UPDATE".toList then
      .next (((st.withQuery { st.query with Typ := .Update, Updates := [] }).pop).withStep .stepUpdateTable)
    else if tok = "DELETE FROM".toList then
      .next (((st.withQuery { st.query with Typ := .Delete }).pop).withStep .stepDeleteFromTable)
    else if tok = "CREATE TABLE".toList then
      .next (((st.withQuery { st.query with Typ := .CreateTable }).pop).withStep .stepCreateTableName)
    else if tok = "CREATE VIEW".toList then
      .next (((st.withQuery { st.query with Typ := .CreateView }).pop).withStep .stepCreateViewName)
    else if tok = "CREATE INDEX".toList then
      .next (((st.withQuery { st.query with Typ := .CreateIndex }).pop).withStep .stepCreateIndexName)
    else if tok = "CREATE USER".toList then
      .next (((st.withQuery { st.query with Typ := .CreateUser }).pop).withStep .stepCreateUserName)
    else if tok = "GRANT".toList then
      .next (((st.withQuery { st.query with Typ := .Grant }).pop).withStep .stepGrantPrivilege)
    else if tok = "REVOKE".toList then
      .next (((st.withQuery { st.query with Typ := .Revoke }).pop).withStep .stepRevokePrivilege)
    else
      .fail (st.withQuery { st.query with Typ := .Unknown })
        ("unknown query type: " ++ String.mk tok)
  | .stepCreateTableName =>
    let tableName := st.peek
    if !isIdentifierOrAsterisk tableName then
      .fail st "at CREATE TABLE: expected a legal table name to CREATE"
    else
      .next (((st.withQuery { st.query with Tables := st.query.Tables ++ [tableName] }).pop).withStep
        .stepCreateTableOpeningParens)
  | .stepCreateTableOpeningParens =>
    let openingParens := st.peek
    if openingParens.length ≠ 1 ∨ openingParens ≠ "(".toList then
      .fail st ("at CREATE TABLE: expected opening parens: " ++ q1 "(")
    else
      .next ((st.pop).withStep .stepCreateTableField)
  | .stepCreateTableField =>
    let fieldName := st.peek
    if !isIdentifierOrAsterisk fieldName then
      .fail st ("at CREATE TABLE: field name " ++ String.mk fieldName ++ " is illegal")
    else
      .next (((st.withQuery
        { st.query with CreateFields := st.query.CreateFields ++ [{ Name := fieldName }] }).pop).withStep
        .stepCreateTableFieldType)
  | .stepCreateTableFieldType =>
    let fieldType := st.peek
    let up := toUpperStr fieldType
    let typed : Option DataType :=
      if up = "SMALLINT".toList then some .SmallInt
      else if up = "DOUBLE".toList then some .Double
      else if up = "VARCHAR".toList then some .Varchar
      else if up = "DATETIME".toList then some .DateTime
      else none
    match typed with
    | none =>
      .fail (st.withQuery (st.query.updateLastField (fun f => { f with DataType := .UnknownDataType })))
        ("at CREATE TABLE: unknown data type " ++ String.mk fieldType)
    | some dt =>
      let st1 := (st.withQuery (st.query.updateLastField (fun f => { f with DataType := dt }))).pop
      let nextIdentifier := st1.peek
      if nextIdentifier = "(".toList then .next (st1.withStep .stepCreateTableFieldOpeningParens)
      else if nextIdentifier = ",".toList then .next (st1.withStep .stepCreateTableComma)
      else .next (st1.withStep .stepCreateTableConstraintType)
  | .stepCreateTableFieldOpeningParens =>
    if st.peek ≠ "(".toList then
      .fail st ("at CREATE TABLE: expected opening parens: " ++ q1 "(")
    else
      .next ((st.pop).withStep .stepCreateTableFieldLength)
  | .stepCreateTableFieldLength =>
    let fieldLength := st.peek
    match parseInt64 fieldLength with
    | none =>
      .fail st ("at CREATE TABLE: field length " ++ String.mk fieldLength ++ " is not an integer")
    | some v =>
      .next (((st.withQuery (st.query.updateLastField (fun f => { f with DataLength := v }))).pop).withStep
        .stepCreateTableFieldClosingParens)
  | .stepCreateTableFieldClosingParens =>
    if st.peek ≠ ")".toList then
      .fail st ("at CREATE TABLE: expected closing parens: " ++ q1 ")")
    else
      let st1 := st.pop
      let up := toUpperStr st1.peek
      if up = ",".toList then .next (st1.withStep .stepCreateTableComma)
      else if up = ")".toList then .next (st1.withStep .stepCreateTableClosingParens)
      else .next (st1.withStep .stepCreateTableConstraintType)
  | .stepCreateTableConstraintType =>
    let constraintType := st.peek
    let up := toUpperStr constraintType
    let added : Option Sql :=
      if up = "NOT NULL".toList then
        some (st.query.updateLastField (fun f =>
          { f with Constraint := f.Constraint ++ [{ ConstraintType := .NotNull }], NotNull := true }))
      else if up = "UNIQUE".toList then
        some (st.query.updateLastField (fun f =>
          { f with Constraint := f.Constraint ++ [{ ConstraintType := .Unique }], Unique := true }))
      else if up = "PRIMARY KEY".toList then
        some (st.query.updateLastField (fun f =>
          { f with Constraint := f.Constraint ++ [{ ConstraintType := .PrimaryKey }] }))
      else if up = "CHECK".toList then
        some st.query
      else if up = "DEFAULT".toList then
        some (st.query.updateLastField (fun f =>
          { f with Constraint := f.Constraint ++ [{ ConstraintType := .Default }] }))
      else none
    match added with
    | none =>
      .fail (st.withQuery (st.query.updateLastField (fun f =>
          { f with Constraint := f.Constraint ++ [{ ConstraintType := .UnknownConstraint }] })))
        ("at CREATE TABLE: unknown constraint type " ++ String.mk constraintType)
    | some q =>
      if up = "CHECK".toList then
        .next ((st.withQuery (q.updateLastField (fun f =>
          { f with Constraint := f.Constraint ++ [{ ConstraintType := .Check }] }))).withStep .stepCheck)
      else
        let st1 := (st.withQuery q).pop
        let nextIdentifier := st1.peek
        if nextIdentifier = ",".toList then .next (st1.withStep .stepCreateTableComma)
        else if nextIdentifier = ")".toList then .next (st1.withStep .stepCreateTableClosingParens)
        else .fail st1 ("at CREATE TABLE: unexpected token: " ++ String.mk nextIdentifier)
  | .stepCheck =>
    if toUpperStr st.peek ≠ "CHECK".toList then
      .fail st "excepted CHECK"
    else
      .next ((st.pop).withStep .stepCheckOpeningParens)
  | .stepCheckOpeningParens =>
    if st.peek ≠ "(".toList then
      .fail st ("at CREATE TABLE: expected opening parens: " ++ q1 "(")
    else
      .next ((st.pop).withStep .stepCheckField)
  | .stepCheckField =>
    let field := st.peek
    .next (((st.withQuery (st.query.updateLastField (fun f =>
      { f with CheckConditions := f.CheckConditions ++ [{ Operand1 := field, Operand1IsField := true }] }))).pop).withStep
      .stepCheckOperator)
  | .stepCheckOperator =>
    let operator := st.peek
    let up := toUpperStr operator
    let opAndStep : Option (Operator × Option Step) :=
      if operator = "=".toList then some (.Eq, none)
      else if operator = ">".toList then some (.Gt, none)
      else if operator = ">=".toList then some (.Gte, none)
      else if operator = "<".toList then some (.Lt, none)
      else if operator = "<=".toList then some (.Lte, none)
      else if operator = "!=".toList then some (.Ne, none)
      else if up = "LIKE".toList then some (.Like, none)
      else if up = "NOT LIKE".toList then some (.NotLike, none)
      else if up = "IN".toList then some (.In, some .stepCheckIn)
      else none
    match opAndStep with
    | none =>
      .fail (st.withQuery (st.query.updateLastCheckCond (fun c => { c with Operator := .UnknownOperator })))
        "at CHECK: unknown operator"
    | some (op, newStep) =>
      let st1 := (st.withQuery (st.query.updateLastCheckCond (fun c => { c with Operator := op }))).withStep
        (newStep.getD st.step)
      if up ≠ "IN".toList then
        .next ((st1.withStep .stepCheckValue).pop)
      else
        .next st1
  | .stepCheckValue =>
    let checkValue := st.peek
    let st1 := (st.withQuery (st.query.updateLastCheckCond (fun c =>
      { c with Operand2 := checkValue, Operand2IsField := false }))).pop
    let nextIdentifier := toUpperStr st1.peek
    if nextIdentifier = ")".toList then .next (st1.withStep .stepCheckClosingParens)
    else if nextIdentifier = "AND".toList then .next (st1.withStep .stepCheckAnd)
    else if nextIdentifier = "OR".toList then .next (st1.withStep .stepCheckOr)
    else .fail st1 ("at CHECK: unexpected token " ++ String.mk st1.peek)
  | .stepCheckIn =>
    if toUpperStr st.peek ≠ "IN".toList then
      .fail st "at CHECK: expected IN"
    else
      .next (((st.withQuery (st.query.updateLastCheckCond (fun c => { c with Operator := .In }))).pop).withStep
        .stepCheckInOpeningParens)
  | .stepCheckInOpeningParens =>
    if st.peek ≠ "(".toList then
      .fail st ("at CHECK: expected opening parens " ++ q1 "(")
    else
      .next ((st.pop).withStep .stepCheckInValue)
  | .stepCheckInValue =>
    let value := st.peek
    .next (((st.withQuery (st.query.updateLastCheckCond (fun c =>
      { c with IsIn := true, InConditions := c.InConditions ++ [value] }))).pop).withStep
      .stepCheckInCommaOrClosingParens)
  | .stepCheckInCommaOrClosingParens =>
    let commaOrClosingParens := st.peek
    if commaOrClosingParens ≠ ",".toList ∧ commaOrClosingParens ≠ ")".toList then
      .fail st ("at CHECK: expected comma " ++ q1 "," ++ " or closing parens " ++ q1 ")")
    else if commaOrClosingParens = ",".toList then
      .next ((st.withStep .stepCheckInValue).pop)
    else
      .next ((st.withStep .stepCheckClosingParens).pop)
  | .stepCheckClosingParens =>
    if st.peek ≠ ")".toList then
      .fail st ("at CHECK: expected closing parens " ++ q1 ")")
    else
      let st1 := st.pop
      if st1.peek = ",".toList then .next (st1.withStep .stepCreateTableComma)
      else .next (st1.withStep .stepCreateTableClosingParens)
  | .stepCheckAnd =>
    if toUpperStr st.peek ≠ "AND".toList then
      .fail st "at CHECK: expected AND"
    else
      .next (((st.withQuery (st.query.updateLastField (fun f =>
        { f with CheckConditionsOperator := f.CheckConditionsOperator ++ [.And] }))).pop).withStep
        .stepCheckField)
  | .stepCheckOr =>
    if toUpperStr st.peek ≠ "OR".toList then
      .fail st "at CHECK: expected OR"
    else
      .next (((st.withQuery (st.query.updateLastField (fun f =>
        { f with CheckConditionsOperator := f.CheckConditionsOperator ++ [.Or] }))).pop).withStep
        .stepCheckField)
  | .stepCreateTableClosingParens =>
    if st.peek ≠ ")".toList then
      .fail st ("at CREATE TABLE: expected closing parens: " ++ q1 ")")
    else
      .next ((st.pop).withStep .stepCreateTableField)
  | .stepCreateTableComma =>
    if st.peek ≠ ",".toList then
      .fail st ("at CREATE TABLE: expected comma: " ++ q1 ",")
    else
      let st1 := st.pop
      let up := toUpperStr st1.peek
      if up = ")".toList then .next (st1.withStep .stepCreateTableClosingParens)
      else if up = "PRIMARY KEY".toList then .next (st1.withStep .stepPrimaryKey)
      else if up = "FOREIGN KEY".toList then .next (st1.withStep .stepForeignKey)
      else if up = "CHECK".toList then .next (st1.withStep .stepCheck)
      else .next (st1.withStep .stepCreateTableField)
  | .stepPrimaryKey =>
    if toUpperStr st.peek ≠ "PRIMARY KEY".toList then
      .fail st "at CREATE TABLE: expected PRIMARY KEY"
    else
      .next ((st.pop).withStep .stepPrimaryKeyOpeningParens)
  | .stepPrimaryKeyOpeningParens =>
    if st.peek ≠ "(".toList then
      .fail st ("at CHECK: expected opening parens " ++ q1 "(")
    else
      .next ((st.pop).withStep .stepPrimaryKeyField)
  | .stepPrimaryKeyField =>
    let fieldName := st.peek
    match lastNameIdx fieldName st.query.CreateFields with
    | none => .fail st ("at CREATE TABLE: unknown field " ++ String.mk fieldName)
    | some i =>
      let newFields := modifyAt (fun f =>
        { f with Constraint := f.Constraint ++ [{ ConstraintType := .PrimaryKey }],
                 PrimaryKey := true }) st.query.CreateFields i
      .next (((st.withQuery { st.query with CreateFields := newFields }).pop).withStep
        .stepPrimaryKeyCommaOrClosingParens)
  | .stepPrimaryKeyCommaOrClosingParens =>
    let commaOrClosingParens := st.peek
    if commaOrClosingParens ≠ ",".toList ∧ commaOrClosingParens ≠ ")".toList then
      .fail st ("at CREATE TABLE: expected comma " ++ q1 "," ++ " or closing parens " ++ q1 ")")
    else if commaOrClosingParens = ",".toList then
      .next ((st.pop).withStep .stepPrimaryKeyField)
    else
      let st1 := st.pop
      if st1.peek = ",".toList then .next (st1.withStep .stepCreateTableComma)
      else .next (st1.withStep .stepCreateTableClosingParens)
  | .stepForeignKey =>
    if toUpperStr st.peek ≠ "FOREIGN KEY".toList then
      .fail st "at CREATE TABLE: expected FOREIGN KEY"
    else
      .next ((st.pop).withStep .stepForeignKeyOpeningParens)
  | .stepForeignKeyOpeningParens =>
    if st.peek ≠ "(".toList then
      .fail st ("at CREATE TABLE: expected opening parens " ++ q1 "(")
    else
      .next ((st.pop).withStep .stepForeignKeyField)
  | .stepForeignKeyField =>
    let fieldName := st.peek
    match lastNameIdx fieldName st.query.CreateFields with
    | none => .fail st ("at CREATE TABLE: unknown field " ++ String.mk fieldName)
    | some i =>
      let newFields := modifyAt (fun f =>
        { f with Constraint := f.Constraint ++ [{ ConstraintType := .ForeignKey }],
                 ForeignKey := true, ForeignKeyFlag := true }) st.query.CreateFields i
      .next (((st.withQuery { st.query with CreateFields := newFields }).pop).withStep
        .stepForeignKeyClosingParens)
  | .stepForeignKeyClosingParens =>
    if st.peek ≠ ")".toList then
      .fail st ("at CREATE TABLE: expected closing parens " ++ q1 ")")
    else
      .next ((st.pop).withStep .stepForeignKeyReference)
  | .stepForeignKeyReference =>
    if toUpperStr st.peek ≠ "REFERENCES".toList then
      .fail st "at CREATE TABLE: expected REFERENCES"
    else
      .next ((st.pop).withStep .stepForeignKeyReferenceTable)
  | .stepForeignKeyReferenceTable =>
    let tableName := st.peek
    let i := (lastFlagIdx st.query.CreateFields).getD 0
    let newFields := modifyAt (fun f =>
      { f with ForeignKeyReferenceTable := tableName }) st.query.CreateFields i
    .next (((st.withQuery { st.query with CreateFields := newFields }).pop).withStep
      .stepForeignKeyReferenceFieldOpeningParens)
  | .stepForeignKeyReferenceFieldOpeningParens =>
    if st.peek ≠ "(".toList then
      .fail st ("at FOREIGN KEY: expected opening parens " ++ q1 "(")
    else
      .next ((st.pop).withStep .stepForeignKeyReferenceField)
  | .stepForeignKeyReferenceField =>
    let fieldName := st.peek
    let i := (lastFlagIdx st.query.CreateFields).getD 0
    let newFields := modifyAt (fun f =>
      { f with ForeignKeyReferenceField := fieldName, ForeignKeyFlag := false })
      st.query.CreateFields i
    .next (((st.withQuery { st.query with CreateFields := newFields }).pop).withStep
      .stepForeignKeyReferenceFieldClosingParens)
  | .stepForeignKeyReferenceFieldClosingParens =>
    if st.peek ≠ ")".toList then
      .fail st ("at CREATE TABLE: expected closing parens " ++ q1 ")")
    else
      let st1 := st.pop
      let nextIdentifier := st1.peek
      if nextIdentifier = ",".toList then .next (st1.withStep .stepCreateTableComma)
      else if nextIdentifier = ")".toList then .next (st1.withStep .stepCreateTableClosingParens)
      else .fail st1 ("at CREATE TABLE: unexpected token " ++ String.mk nextIdentifier)
  | .stepSelectField =>
    let field := st.peek
    if !isIdentifierOrAsterisk field then
      .fail st "at SELECT: expected field to SELECT"
    else
      let st1 := (st.withQuery { st.query with Fields := st.query.Fields ++ [field] }).pop
      if toUpperStr st1.peek = "FROM".toList then .next (st1.withStep .stepSelectFrom)
      else .next (st1.withStep .stepSelectComma)
  | .stepSelectComma =>
    if st.peek ≠ ",".toList then
      .fail st ("at SELECT: expected comma " ++ q1 "," ++ " or FROM")
    else
      .next ((st.pop).withStep .stepSelectField)
  | .stepSelectFrom =>
    if toUpperStr st.peek ≠ "FROM".toList then
      .fail st "at SELECT: expected FROM"
    else
      .next ((st.pop).withStep .stepSelectFromTable)
  | .stepSelectFromTable =>
    let tableName := st.peek
    if tableName.length = 0 then
      .fail st "at SELECT: expected quoted table name"
    else
      let st1 := (st.withQuery { st.query with Tables := st.query.Tables ++ [tableName] }).pop
      if st1.peek = ",".toList then .next (st1.withStep .stepSelectFromTableComma)
      else .next (st1.withStep .stepWhere)
  | .stepSelectFromTableComma =>
    if st.peek ≠ ",".toList then
      .fail st "at SELECT: expected comma or WHERE"
    else
      .next ((st.pop).withStep .stepSelectFromTable)
  | .stepInsertTable =>
    let tableName := st.peek
    if tableName.length = 0 then
      .fail st "at INSERT INTO: expected a table name to INSERT"
    else
      .next (((st.withQuery { st.query with Tables := st.query.Tables ++ [tableName] }).pop).withStep
        .stepInsertFieldsOpeningParens)
  | .stepInsertFieldsOpeningParens =>
    let openingParens := st.peek
    if openingParens.length ≠ 1 ∨ openingParens ≠ "(".toList then
      .fail st ("at INSERT INTO: expected opening parens " ++ q1 "(")
    else
      .next ((st.pop).withStep .stepInsertFields)
  | .stepInsertFields =>
    let field := st.peek
    if !isIdentifier field then
      .fail st "at INSERT INTO: expected at least one field to INSERT"
    else
      .next (((st.withQuery { st.query with Fields := st.query.Fields ++ [field] }).pop).withStep
        .stepInsertFieldsCommaOrClosingParens)
  | .stepInsertFieldsCommaOrClosingParens =>
    let commaOrClosingParens := st.peek
    if commaOrClosingParens ≠ ",".toList ∧ commaOrClosingParens ≠ ")".toList then
      .fail st "at INSERT INTO: expected comma or closing parens"
    else
      let st1 := st.pop
      if commaOrClosingParens = ",".toList then .next (st1.withStep .stepInsertFields)
      else .next (st1.withStep .stepInsertValue)
  | .stepInsertValue =>
    if toUpperStr st.peek ≠ "VALUES".toList then
      .fail st "at INSERT INTO: expected VALUES"
    else
      .next ((st.pop).withStep .stepInsertValuesOpeningParens)
  | .stepInsertValuesOpeningParens =>
    if st.peek ≠ "(".toList then
      .fail st "at INSERT INTO: expected opening parens"
    else
      .next (((st.withQuery { st.query with Inserts := st.query.Inserts ++ [[]] }).pop).withStep
        .stepInsertValues)
  | .stepInsertValues =>
    let value := st.peek
    .next (((st.withQuery { st.query with
      Inserts := updateLast (fun row => row ++ [value]) st.query.Inserts }).pop).withStep
      .stepInsertValuesCommaOrClosingParens)
  | .stepInsertValuesCommaOrClosingParens =>
    let commaOrClosingParens := st.peek
    if commaOrClosingParens ≠ ",".toList ∧ commaOrClosingParens ≠ ")".toList then
      .fail st "at INSERT INTO: expected comma or closing parens"
    else
      let st1 := st.pop
      if commaOrClosingParens = ",".toList then
        .next (st1.withStep .stepInsertValues)
      else
        let currentInsertRow := st1.query.Inserts.getLastD []
        if currentInsertRow.length < st1.query.Fields.length then
          .fail st1 ("at INSERT INTO: value count doesn" ++ apos ++ "t match field count")
        else
          .next (st1.withStep .stepInsertValue)
  | .stepUpdateTable =>
    let tableName := st.peek
    if tableName.length = 0 then
      .fail st "at UPDATE: expected a table name to UPDATE"
    else
      .next (((st.withQuery { st.query with Tables := st.query.Tables ++ [tableName] }).pop).withStep
        .stepUpdateSet)
  | .stepUpdateSet =>
    if st.peek ≠ "SET".toList then
      .fail st "at UPDATE: expected SET"
    else
      .next ((st.pop).withStep .stepUpdateField)
  | .stepUpdateField =>
    let field := st.peek
    if !isIdentifier field then
      .fail st "at UPDATE: expected at least one field to update"
    else
      .next (({ st.pop with nextUpdateField := field }).withStep .stepUpdateEqual)
  | .stepUpdateEqual =>
    if st.peek ≠ "=".toList then
      .fail st ("at UPDATE: expected equal " ++ q1 "=")
    else
      .next ((st.pop).withStep .stepUpdateValue)
  | .stepUpdateValue =>
    let value := st.peek
    let st1 := { (st.withQuery { st.query with
      Updates := mapSet st.nextUpdateField value st.query.Updates }).pop with nextUpdateField := [] }
    if toUpperStr st1.peek = "WHERE".toList then .next (st1.withStep .stepWhere)
    else .next (st1.withStep .stepUpdateComma)
  | .stepUpdateComma =>
    if st.peek ≠ ",".toList then
      .fail st ("at UPDATE: expected comma " ++ q1 ",")
    else
      .next ((st.pop).withStep .stepUpdateField)
  | .stepDeleteFromTable =>
    let tableName := st.peek
    if tableName.length = 0 then
      .fail st "at DELETE FROM: expected a table name to DELETE FROM"
    else
      let st1 := (st.withQuery { st.query with Tables := st.query.Tables ++ [tableName] }).pop
      if st1.peek = "WHERE".toList then .next (st1.withStep .stepWhere)
      else .next st1
  | .stepWhere =>
    if toUpperStr st.peek ≠ "WHERE".toList then
      .fail st "expected WHERE"
    else
      .next ((st.pop).withStep .stepWhereField)
  | .stepWhereField =>
    let field := st.peek
    if !isIdentifier field then
      .fail st "at WHERE: expected field"
    else
      .next (((st.withQuery { st.query with
        Conditions := st.query.Conditions ++ [{ Operand1 := field, Operand1IsField := true }] }).pop).withStep
        .stepWhereOperator)
  | .stepWhereOperator =>
    let operator := st.peek
    let opAndStep : Option (Operator × Option Step) :=
      if operator = "=".toList then some (.Eq, none)
      else if operator = ">".toList then some (.Gt, none)
      else if operator = ">=".toList then some (.Gte, none)
      else if operator = "<".toList then some (.Lt, none)
      else if operator = "<=".toList then some (.Lte, none)
      else if operator = "!=".toList then some (.Ne, none)
      else if operator = "LIKE".toList then some (.Like, none)
      else if operator = "NOT LIKE".toList then some (.NotLike, none)
      else if operator = "IN".toList then some (.In, some .stepWhereIn)
      else if operator = "NOT IN".toList then some (.NotIn, some .stepWhereNotIn)
      else if operator = "BETWEEN".toList then some (.Between, some .stepWhereBetween)
      else if operator = "NOT BETWEEN".toList then some (.NotBetween, some .stepWhereNotBetween)
      else none
    match opAndStep with
    | none => .fail st "at WHERE: unknown operator"
    | some (op, newStep) =>
      let st1 := (st.withQuery (st.query.updateLastCond (fun c => { c with Operator := op }))).withStep
        (newStep.getD st.step)
      if st1.step ≠ .stepWhereBetween ∧ st1.step ≠ .stepWhereNotBetween ∧
         st1.step ≠ .stepWhereIn ∧ st1.step ≠ .stepWhereNotIn then
        .next ((st1.pop).withStep .stepWhereValue)
      else
        .next st1
  | .stepWhereValue =>
    let whereValue := st.peek
    let st1 := (st.withQuery (st.query.updateLastCond (fun c =>
      { c with Operand2 := whereValue, Operand2IsField := false }))).pop
    let up := toUpperStr st1.peek
    if up = "AND".toList then .next (st1.withStep .stepWhereAnd)
    else if up = "OR".toList then .next (st1.withStep .stepWhereOr)
    else if up = "IN".toList then .next (st1.withStep .stepWhereIn)
    else if up = "NOT IN".toList then .next (st1.withStep .stepWhereNotIn)
    else if up = "BETWEEN".toList then .next (st1.withStep .stepWhereBetween)
    else .next st1
  | .stepWhereAnd =>
    if toUpperStr st.peek ≠ "AND".toList then
      .fail st "expected AND"
    else
      .next (((st.withQuery { st.query with
        ConditionOperators := st.query.ConditionOperators ++ [.And] }).pop).withStep .stepWhereField)
  | .stepWhereOr =>
    if toUpperStr st.peek ≠ "OR".toList then
      .fail st "expected OR"
    else
      .next (((st.withQuery { st.query with
        ConditionOperators := st.query.ConditionOperators ++ [.Or] }).pop).withStep .stepWhereField)
  | .stepWhereIn =>
    if toUpperStr st.peek ≠ "IN".toList then
      .fail st "at WHERE: expected IN"
    else
      .next (((st.withQuery (st.query.updateLastCond (fun c => { c with IsIn := true }))).pop).withStep
        .stepWhereInOpeningParens)
  | .stepWhereNotIn =>
    if toUpperStr st.peek ≠ "NOT IN".toList then
      .fail st "at WHERE: expected NOT IN"
    else
      .next (((st.withQuery (st.query.updateLastCond (fun c => { c with IsNotIn := true }))).pop).withStep
        .stepWhereInOpeningParens)
  | .stepWhereInOpeningParens =>
    if st.peek ≠ "(".toList then
      .fail st ("at WHERE: expected opening parens " ++ q1 "(")
    else
      .next ((st.pop).withStep .stepWhereInValue)
  | .stepWhereInValue =>
    let value := st.peek
    .next (((st.withQuery (st.query.updateLastCond (fun c =>
      { c with InConditions := c.InConditions ++ [value] }))).pop).withStep
      .stepWhereInCommaOrClosingParens)
  | .stepWhereInCommaOrClosingParens =>
    let commaOrClosingParens := st.peek
    if commaOrClosingParens ≠ ",".toList ∧ commaOrClosingParens ≠ ")".toList then
      .fail st ("at CHECK: expected comma " ++ q1 "," ++ " or closing parens " ++ q1 ")")
    else if commaOrClosingParens = ",".toList then
      .next ((st.withStep .stepWhereInValue).pop)
    else
      .next ((st.withStep .stepWhere).pop)
  | .stepWhereBetween =>
    if st.peek ≠ "BETWEEN".toList then
      .fail st "expected BETWEEN"
    else
      .next ((st.pop).withStep .stepWhereBetweenValue)
  | .stepWhereNotBetween =>
    if st.peek ≠ "NOT BETWEEN".toList then
      .fail st "expected NOT BETWEEN"
    else
      .next (((st.withQuery (st.query.updateLastCond (fun c => { c with IsNotBetween := true }))).pop).withStep
        .stepWhereBetweenValue)
  | .stepWhereBetweenValue =>
    let value := st.peek
    .next (((st.withQuery (st.query.updateLastCond (fun c =>
      { c with Operand1 := value, Operand1IsField := false }))).pop).withStep .stepWhereBetweenAnd)
  | .stepWhereBetweenAnd =>
    if st.peek ≠ "AND".toList then
      .fail st "expected AND"
    else
      .next ((st.pop).withStep .stepWhereBetweenAndValue)
  | .stepWhereBetweenAndValue =>
    let value := st.peek
    .next (((st.withQuery (st.query.updateLastCond (fun c =>
      { c with Operand2 := value, Operand2IsField := false }))).pop).withStep .stepWhere)
  | .stepCreateViewName =>
    let name := st.peek
    if !isIdentifierOrAsterisk name then
      .fail st "at CREATE VIEW: expected view name to CREATE"
    else
      .next (((st.withQuery { st.query with Tables := st.query.Tables ++ [name] }).pop).withStep
        .stepCreateViewOpeningParens)
  | .stepCreateViewOpeningParens =>
    if st.peek ≠ "(".toList then
      .fail st ("at CREATE VIEW: expected opening parens " ++ q1 "(")
    else
      .next ((st.pop).withStep .stepCreateViewField)
  | .stepCreateViewField =>
    let field := st.peek
    if !isIdentifierOrAsterisk field then
      .fail st "at CREATE VIEW: expected field name to CREATE"
    else
      .next (((st.withQuery { st.query with Fields := st.query.Fields ++ [field] }).pop).withStep
        .stepCreateViewCommaOrClosingParens)
  | .stepCreateViewCommaOrClosingParens =>
    let commaOrClosingParens := st.peek
    if commaOrClosingParens ≠ ",".toList ∧ commaOrClosingParens ≠ ")".toList then
      .fail st ("at CREATE VIEW: expected comma " ++ q1 "," ++ " or closing parens " ++ q1 ")")
    else
      let st1 := st.pop
      if commaOrClosingParens = ",".toList then .next (st1.withStep .stepCreateViewField)
      else .next (st1.withStep .stepCreateViewAs)
  | .stepCreateViewAs =>
    if toUpperStr st.peek ≠ "AS".toList then
      .fail st "at CREATE VIEW: expected AS"
    else
      .next ((st.pop).withStep .stepCreateViewSelect)
  | .stepCreateViewSelect =>
    let selectSql := st.peekToEnd
    .next (((st.withQuery { st.query with ViewSelect := selectSql }).popToEnd).withStep
      .stepCreateViewName)
  | _ => .next st

/-! ## The parse loop and the entry points (table.go) -/

/-- The for-loop of doParse as a fuel-indexed interpreter.  The loop
returns (p.query, p.err) when the position reaches the end of the input,
and (p.query, an error) when a case returns early; `none` means the loop
has not returned within the given fuel.  The final parser state is kept
in the result so that the (never invoked) validate function can be
evaluated on it. -/
def doParseAux : Nat → PState → Option (PState × Option String)
  | 0, _ => none
  | n + 1, st =>
    if st.position ≥ st.sql.length then some (st, st.err)
    else match stepOnce st with
      | .fail st' msg => some (st', some msg)
      | .next st' => doParseAux n st'

/-- The parser literal built by the package-level parse function: the
input is trimmed and every other field starts at its zero value. -/
def initParser (s : Str) : PState := { sql := trimSpace s }

/-- parse (package-level) followed by the parse method: runs doParse on a
fresh parser and exposes the final parser state next to the error. -/
def runParser (fuel : Nat) (s : Str) : Option (PState × Option String) :=
  doParseAux fuel (initParser s)

/-- The (Sql, error) pair the parse function returns to its callers. -/
def parseFn (fuel : Nat) (s : Str) : Option (Sql × Option String) :=
  (runParser fuel s).map (fun r => (r.1.query, r.2))

/-- validate of table.go.  It is defined on the final parser state but —
unlike what the specification describes — nothing in the repository ever
calls it. -/
def validateConds : List Condition → Option String
  | [] => none
  | c :: rest =>
    if c.Operator = .UnknownOperator then some "at WHERE: condition without operator"
    else if c.Operand1 = [] ∧ c.Operand1IsField then
      some "at WHERE: condition with empty left side operand"
    else if c.Operand2 = [] ∧ c.Operand2IsField then
      some "at WHERE: condition with empty right side operand"
    else validateConds rest

def validate (p : PState) : Option String :=
  if p.query.Conditions.length = 0 ∧ p.step = .stepWhereField then
    some "at WHERE: empty WHERE clause"
  else if p.query.Typ = .Unknown then
    some "query type cannot be empty"
  else if p.query.Tables.any (fun name => name = []) then
    some "table name cannot be empty"
  else if p.query.Conditions.length = 0 ∧ (p.query.Typ = .Update ∨ p.query.Typ = .Delete) then
    some "at WHERE: WHERE clause is mandatory for UPDATE & DELETE"
  else match validateConds p.query.Conditions with
    | some msg => some msg
    | none =>
      if p.query.Typ = .Insert ∧ p.query.Inserts.length = 0 then
        some "at INSERT INTO: need at least one row to insert"
      else if p.query.Typ = .Insert ∧
          p.query.Inserts.any (fun i => i.length ≠ p.query.Fields.length) then
        some ("at INSERT INTO: value count doesn" ++ apos ++ "t match field count")
      else none

/-- ParseMany of table.go: parse each text in order, stopping at the
first failure and returning the statements parsed so far together with
that error.  `none` propagates fuel exhaustion of an individual parse. -/
def ParseManyFuel (fuel : Nat) : List Str → Option (List Sql × Option String)
  | [] => some ([], none)
  | s :: rest =>
    match parseFn fuel s with
    | none => none
    | some (_, some e) => some ([], some e)
    | some (q, none) =>
      match ParseManyFuel fuel rest with
      | none => none
      | some (qs, e) => some (q :: qs, e)

/-- Parse of table.go: ParseMany on a one-element batch; when no
statement was produced the zero-valued Sql is returned with the error. -/
def ParseFuel (fuel : Nat) (s : Str) : Option (Sql × Option String) :=
  (ParseManyFuel fuel [s]).map (fun r => (r.1.headD {}, r.2))

/-! ## Concrete statement texts used by the claims -/

/-- UPDATE t SET a = (quoted 1), with no WHERE clause. -/
def c1Input : Str := "UPDATE t SET a = ".toList ++ [quoteChar, '1', quoteChar]

/-- SELECT a FROM t WHERE x = (quote)b — an unterminated quoted literal. -/
def c2Input : Str := "SELECT a FROM t WHERE x = ".toList ++ [quoteChar, 'b']

/-- INSERT INTO t (a) VALUES (quoted 1, quoted 2): one more literal than columns. -/
def c3ExtraInput : Str :=
  "INSERT INTO t (a) VALUES (".toList ++ [quoteChar, '1', quoteChar, ','] ++
    [quoteChar, '2', quoteChar, ')']

/-- INSERT INTO t (a,b) VALUES (quoted 1): one literal fewer than columns. -/
def c3MissingInput : Str :=
  "INSERT INTO t (a,b) VALUES (".toList ++ [quoteChar, '1', quoteChar, ')']

/-- INSERT INTO t (a,b) VALUES (quoted 1, quoted 2): matching arity. -/
def c3ExactInput : Str :=
  "INSERT INTO t (a,b) VALUES (".toList ++ [quoteChar, '1', quoteChar, ','] ++
    [quoteChar, '2', quoteChar, ')']

/-- SELECT a FROM t WHERE x BETWEEN (quoted 1) AND (quoted 10). -/
def c4Input : Str :=
  "SELECT a FROM t WHERE x BETWEEN ".toList ++ [quoteChar, '1', quoteChar] ++
    " AND ".toList ++ [quoteChar, '1', '0', quoteChar]

def c5Input : Str :=
  "CREATE TABLE t (id SMALLINT PRIMARY KEY, name VARCHAR(20) NOT NULL)".toList

/-- A CREATE VIEW whose embedded text after AS is not a SELECT. -/
def c7NonSelectView : Str := "CREATE VIEW v (a) AS x".toList

/-- A CREATE VIEW whose embedded text after AS is a well-formed SELECT. -/
def c7SelectView : Str := "CREATE VIEW v (a) AS SELECT a FROM t".toList

/-- update t set a = (quoted 1) where b = (quoted 2), all keywords in
lower case, exercising the case-sensitive SET comparison site. -/
def c10LowerInput : Str :=
  "update t set a = ".toList ++ [quoteChar, '1', quoteChar] ++
    " where b = ".toList ++ [quoteChar, '2', quoteChar]

/-! ## General lemmas about the interpreter -/

theorem doParseAux_succ_next {st st' : PState} (h1 : ¬ st.position ≥ st.sql.length)
    (h2 : stepOnce st = .next st') (n : Nat) :
    doParseAux (n + 1) st = doParseAux n st' := by
  simp [doParseAux, h1, h2]

/-- The successor state of one loop iteration (the .next payload; a
failing state is mapped to itself, which never happens along the chains
this is applied to). -/
def nextState (st : PState) : PState :=
  match stepOnce st with
  | .next s => s
  | .fail s _ => s

/-! ## Claim C2 -/

/-- Along c2Input the first seven loop iterations each continue to the
next state in the chain. -/
theorem c2_chain_steps : ∀ k : Fin 7,
    stepOnce (nextState^[k.1] (initParser c2Input)) =
      .next (nextState^[k.1 + 1] (initParser c2Input)) := by
  decide

/-- After seven iterations the parser sits at stepWhereValue in front of
the unterminated literal; the iteration neither advances the position
nor changes anything else: the state is a fixpoint of the loop body. -/
theorem c2_chain_fixpoint :
    stepOnce (nextState^[7] (initParser c2Input)) =
      .next (nextState^[7] (initParser c2Input)) := by
  decide

/-- Every state of the chain still has unconsumed input, so the loop
never reaches its end-of-input exit. -/
theorem c2_chain_position : ∀ k : Fin 8,
    ¬ (nextState^[k.1] (initParser c2Input)).position ≥
      (nextState^[k.1] (initParser c2Input)).sql.length := by
  decide

theorem c2_no_fuel_suffices :
    ∀ n i : Nat, i ≤ 7 → doParseAux n (nextState^[i] (initParser c2Input)) = none := by
  intro n
  induction n with
  | zero => intro i _; rfl
  | succ n ih =>
    intro i hi
    by_cases h : i < 7
    · rw [doParseAux_succ_next (c2_chain_position ⟨i, by omega⟩) (c2_chain_steps ⟨i, h⟩)]
      exact ih (i + 1) (by omega)
    · have h7 : i = 7 := by omega
      subst h7
      rw [doParseAux_succ_next (c2_chain_position ⟨7, by omega⟩) c2_chain_fixpoint]
      exact ih 7 (by omega)

/-- Claim C2: the spec says parsing always terminates, for every input.
On the input SELECT a FROM t WHERE x = (quote)b, whose quoted literal is
never closed, the doParse loop reaches stepWhereValue where the peeked
token is empty with length zero; the iteration changes nothing and the
position never advances, so the loop runs forever.  In the model: no
amount of fuel makes the interpreter return, for Parse just as for the
raw loop. -/
theorem claim_C2_unterminated_literal_loops_forever :
    ∀ fuel : Nat, runParser fuel c2Input = none ∧ ParseFuel fuel c2Input = none := by
  intro fuel
  have h : doParseAux fuel (initParser c2Input) = none := c2_no_fuel_suffices fuel 0 (by omega)
  constructor
  · exact h
  · simp [ParseFuel, ParseManyFuel, parseFn, runParser, h]

/-! ## Claim C1 -/

/-- Claim C1: the spec says UPDATE t SET a = (quoted 1), having no WHERE
clause, is rejected with the mandatory-WHERE semantic error.  The code
accepts it: doParse returns the Update statement with zero Conditions
and a nil error, because the validate function carrying exactly that
check is never called by parse.  Evaluating the repository's own
validate on the final parser state yields precisely the error the claim
expects. -/
theorem claim_C1_update_without_where_accepted :
    (runParser 40 c1Input).map
        (fun r => (r.1.query.Typ, r.2, r.1.query.Conditions, validate r.1)) =
      some (.Update, none, [],
        some "at WHERE: WHERE clause is mandatory for UPDATE & DELETE") ∧
    (ParseFuel 40 c1Input).map (fun r => r.2) = some none := by
  constructor
  · decide
  · decide

/-! ## Claim C3 -/

/-- Claim C3: the spec says every INSERT tuple whose arity differs from
the column list errors out.  The eager check of
stepInsertValuesCommaOrClosingParens only fires when the tuple has FEWER
literals than columns, and the exact-arity check sits in the never
invoked validate: INSERT INTO t (a) VALUES (two literals) parses with a
nil error and keeps the row, while validate on the final state would
have produced the arity error.  The two examples quoted by the claim do
behave as stated. -/
theorem claim_C3_insert_arity_not_fully_checked :
    (runParser 60 c3ExtraInput).map
        (fun r => (r.2, r.1.query.Inserts, r.1.query.Fields, validate r.1)) =
      some (none, [["1".toList, "2".toList]], ["a".toList],
        some ("at INSERT INTO: value count doesn" ++ apos ++ "t match field count")) ∧
    (runParser 60 c3MissingInput).map (fun r => r.2) =
      some (some ("at INSERT INTO: value count doesn" ++ apos ++ "t match field count")) ∧
    (runParser 60 c3ExactInput).map (fun r => (r.2, r.1.query.Inserts)) =
      some (none, [["1".toList, "2".toList]]) := by
  refine ⟨by decide, by decide, by decide⟩

/-! ## Claim C4 -/

/-- Claim C4 counterexample: for SELECT a FROM t WHERE x BETWEEN (quoted
1) AND (quoted 10) the claim asserts Operand1IsField is set for the
column reference x; in fact the parse succeeds with a single Condition
whose Operand1 has been overwritten by the first bound literal and whose
Operand1IsField is false. -/
theorem claim_C4_between_counterexample :
    (runParser 60 c4Input).map
        (fun r => (r.2, r.1.query.Conditions.map (fun c => (c.Operand1, c.Operand1IsField)))) =
      some (none, [("1".toList, false)]) := by
  decide

/-- Claim C4 amended: the BETWEEN query parses with a nil error into
exactly one Condition with Operator Between whose two bound literals are
captured in Operand1 and Operand2 (overwriting the column reference x),
with Operand1IsField and Operand2IsField both false and the
IsBetween/BetweenOperand fields left at their zero values. -/
theorem claim_C4_between_amended :
    (runParser 60 c4Input).map (fun r => (r.2, r.1.query.Conditions, r.1.query.Fields, r.1.query.Tables)) =
      some (none,
        [{ Operand1 := "1".toList, Operand2 := "10".toList, Operator := .Between }],
        ["a".toList], ["t".toList]) := by
  decide

/-! ## Claim C5 -/

/-- Claim C5 counterexample: the claim asserts the PrimaryKey boolean
flag of column id is set; after parsing, both columns carry PrimaryKey =
false (the column-level PRIMARY KEY branch of
stepCreateTableConstraintType records only the constraint-list entry and
never sets the flag, unlike the NOT NULL and UNIQUE branches). -/
theorem claim_C5_create_table_counterexample :
    (runParser 80 c5Input).map
        (fun r => (r.2, r.1.query.CreateFields.map Field.PrimaryKey)) =
      some (none, [false, false]) := by
  decide

/-- Claim C5 amended: the CREATE TABLE statement parses with a nil error
into exactly two column definitions: id of DataType SmallInt carrying a
PrimaryKey entry in its constraint list but with its PrimaryKey boolean
still false, and name of DataType Varchar with length 20 and its NotNull
boolean set (the flag is only set by the table-level PRIMARY KEY (...)
clause, not by the column-level constraint). -/
theorem claim_C5_create_table_amended :
    (runParser 80 c5Input).map (fun r => (r.2, r.1.query.CreateFields)) =
      some (none,
        [{ Name := "id".toList, DataType := .SmallInt,
           Constraint := [{ ConstraintType := .PrimaryKey }] },
         { Name := "name".toList, DataType := .Varchar, DataLength := 20,
           Constraint := [{ ConstraintType := .NotNull }], NotNull := true }]) := by
  decide

/-! ## Claim C6 -/

/-- Claim C6: the spec says Kind Unknown is never a terminal success
state, for every input including the empty string.  Parse of the empty
(or all-whitespace) string returns the zero-valued statement with Typ
Unknown and a nil error, because doParse returns immediately at
end-of-input and the validate function whose first kind check would have
rejected it is never called. -/
theorem claim_C6_empty_input_unknown_accepted :
    ParseFuel 5 [] = some ({}, none) ∧
    ({} : Sql).Typ = .Unknown ∧
    (runParser 5 []).map (fun r => (r.1.query.Typ, r.2, validate r.1)) =
      some (.Unknown, none, some "query type cannot be empty") ∧
    (ParseFuel 5 "   ".toList).map (fun r => (r.1.Typ, r.2)) = some (.Unknown, none) := by
  refine ⟨by decide, by decide, by decide, by decide⟩

/-! ## Claim C7 -/

/-- Claim C7 counterexample: CREATE VIEW v (a) AS x parses successfully
as a CreateView whose captured ViewSelect text is the single letter x,
and feeding that captured text back to the parser fails with an
unknown-query-type error instead of parsing as a Select. -/
theorem claim_C7_view_select_counterexample :
    (runParser 60 c7NonSelectView).map
        (fun r => (r.2, r.1.query.Typ, r.1.query.ViewSelect)) =
      some (none, .CreateView, "x".toList) ∧
    (parseFn 60 "x".toList).map (fun r => r.2) =
      some (some "unknown query type: X") := by
  refine ⟨by decide, by decide⟩

/-- Claim C7 amended: the text after AS is captured verbatim into
ViewSelect with no validation, so re-parsing it succeeds as a Select
exactly when that text happens to be a well-formed SELECT — as it is for
CREATE VIEW v (a) AS SELECT a FROM t — and can fail otherwise. -/
theorem claim_C7_view_select_amended :
    (runParser 60 c7SelectView).map
        (fun r => (r.2, r.1.query.Typ, r.1.query.ViewSelect)) =
      some (none, .CreateView, "SELECT a FROM t".toList) ∧
    (parseFn 60 "SELECT a FROM t".toList).map (fun r => (r.2, r.1.Typ)) =
      some (none, .Select) := by
  refine ⟨by decide, by decide⟩

/-! ## Claim C8 -/

/-- Claim C8: ParseMany parses the given texts in order; on the first
text whose parse fails it stops and returns exactly the statements
successfully parsed before it together with that error, and when every
text parses it returns all statements in input order with a nil error
(stated for any fuel bound shared by the individual parses). -/
theorem claim_C8_parse_many (fuel : Nat) :
    (∀ sqls qs, List.Forall₂ (fun s q => parseFn fuel s = some (q, none)) sqls qs →
      ParseManyFuel fuel sqls = some (qs, none)) ∧
    (∀ pre qs bad rest qb e,
      List.Forall₂ (fun s q => parseFn fuel s = some (q, none)) pre qs →
      parseFn fuel bad = some (qb, some e) →
      ParseManyFuel fuel (pre ++ bad :: rest) = some (qs, some e)) := by
  constructor
  · intro sqls qs h
    induction h with
    | nil => rfl
    | cons h1 _ ih => simp [ParseManyFuel, h1, ih]
  · intro pre qs bad rest qb e h hbad
    induction h with
    | nil => simp [ParseManyFuel, hbad]
    | cons h1 _ ih => simp [ParseManyFuel, h1, ih]

/-- Witness for C8: a batch whose second text fails returns exactly the
first statement and the error of the second; the third is not reached. -/
theorem claim_C8_parse_many_witness :
    ParseManyFuel 60 ["SELECT a FROM t".toList, "oops".toList, "SELECT b FROM t".toList] =
      some ([{ Typ := .Select, Tables := ["t".toList], Fields := ["a".toList] }],
        some "unknown query type: OOPS") :=
  (claim_C8_parse_many 60).2
    ["SELECT a FROM t".toList]
    [{ Typ := .Select, Tables := ["t".toList], Fields := ["a".toList] }]
    ("oops".toList) ["SELECT b FROM t".toList] {} "unknown query type: OOPS"
    (List.Forall₂.cons (by decide) List.Forall₂.nil)
    (by decide)

/-! ## Claim C9 -/

/-- Claim C9: in the fixed vocabulary legalWords, every entry that has
another entry of the list as a proper textual prefix appears earlier in
the list than that prefix, so the first-match scan cannot let the
shorter entry match where the longer one would. -/
theorem claim_C9_legal_words_prefix_order :
    ∀ i j : Fin legalWords.length,
      (legalWords.get j).isPrefixOf (legalWords.get i) = true →
      legalWords.get j ≠ legalWords.get i →
      (i : Nat) < (j : Nat) := by
  decide

/-- Witness for C9: the greater-or-equal sign at index 2 has the greater
sign at index 7 as a proper prefix, and indeed 2 < 7. -/
theorem claim_C9_legal_words_prefix_order_witness :
    (legalWords.get ⟨7, by decide⟩).isPrefixOf (legalWords.get ⟨2, by decide⟩) = true ∧
    legalWords.get ⟨7, by decide⟩ ≠ legalWords.get ⟨2, by decide⟩ ∧
    (2 : Nat) < 7 :=
  ⟨by decide, by decide,
    claim_C9_legal_words_prefix_order ⟨2, by decide⟩ ⟨7, by decide⟩ (by decide) (by decide)⟩

/-! ## Claim C10 -/

theorem take_min (l : List α) (k : Nat) : l.take (Nat.min k l.length) = l.take k := by
  rcases Nat.le_total k l.length with h | h
  · have hm : Nat.min k l.length = k := by simp [Nat.min_def, h]
    rw [hm]
  · have hm : Nat.min k l.length = l.length := by simp [Nat.min_def]; omega
    rw [hm, List.take_of_length_le h, List.take_of_length_le (Nat.le_refl _)]

/-- The vocabulary scan only ever returns an entry of the scanned list,
with its own length, and only when the upper-cased input slice of that
length is the entry itself. -/
theorem scanWords_sound (sql : Str) (pos : Nat) :
    ∀ (l : List Str) (tok : Str) (n : Nat), scanWords sql pos l = some (tok, n) →
      tok ∈ l ∧ n = tok.length ∧
        toUpperStr (slice sql pos (Nat.min sql.length (pos + tok.length))) = tok := by
  intro l
  induction l with
  | nil => intro tok n h; simp [scanWords] at h
  | cons lw rest ih =>
    intro tok n h
    simp only [scanWords] at h
    split at h
    · rename_i hc
      rw [Option.some_inj, Prod.mk.injEq] at h
      obtain ⟨h1, h2⟩ := h
      subst h1
      subst h2
      refine ⟨?_, rfl, ?_⟩
      · rw [hc]
        exact List.mem_cons_self _ _
      · have hlen : (toUpperStr (slice sql pos (Nat.min sql.length (pos + lw.length)))).length =
            lw.length := by rw [hc]
        rw [hlen]
    · obtain ⟨hm, hn, hu⟩ := ih tok n h
      exact ⟨List.mem_cons_of_mem _ hm, hn, hu⟩

/-- The identifier scan returns the consumed characters verbatim. -/
theorem peekIdentifier_verbatim (sql : Str) (pos : Nat) (tok : Str) (n : Nat)
    (h : peekIdentifierWithLength sql pos = (tok, n)) : tok = slice sql pos (pos + n) := by
  simp only [peekIdentifierWithLength] at h
  rw [Prod.mk.injEq] at h
  obtain ⟨h1, h2⟩ := h
  subst h1
  subst h2
  show slice sql pos (findIdentEnd sql pos) =
    slice sql pos (pos + (slice sql pos (findIdentEnd sql pos)).length)
  unfold slice
  rw [Nat.add_sub_cancel_left, List.length_take]
  exact (take_min _ _).symm

/-- The quoted-literal scan returns the characters between the two
delimiting quotes verbatim (whenever it consumed anything at all). -/
theorem peekQuoted_verbatim (sql : Str) (pos : Nat) (tok : Str) (n : Nat)
    (h : peekQuotedStringWithLength sql pos = (tok, n)) (hn : 0 < n) :
    tok = slice sql (pos + 1) (pos + n - 1) := by
  unfold peekQuotedStringWithLength at h
  split at h
  · rw [Prod.mk.injEq] at h
    obtain ⟨h1, h2⟩ := h
    omega
  · split at h
    · rename_i i hm
      rw [Prod.mk.injEq] at h
      obtain ⟨h1, h2⟩ := h
      subst h1
      subst h2
      show slice sql (pos + 1) i =
        slice sql (pos + 1) (pos + ((slice sql (pos + 1) i).length + 2) - 1)
      unfold slice
      have harith : pos + ((((sql.drop (pos + 1)).take (i - (pos + 1))).length + 2)) - 1 -
          (pos + 1) = ((sql.drop (pos + 1)).take (i - (pos + 1))).length := by omega
      rw [harith, List.length_take]
      exact (take_min _ _).symm
    · rw [Prod.mk.injEq] at h
      obtain ⟨h1, h2⟩ := h
      omega

/-- Claim C10: whenever the next unconsumed characters match a fixed
vocabulary entry case-insensitively, peek returns that upper-cased
vocabulary entry itself (a member of legalWords whose upper-cased
consumed slice is the token); when no entry matches, identifier tokens
and quoted-literal tokens are returned as verbatim slices of the input;
and consequently keywords are accepted in any letter case, including at
the case-sensitive SET comparison of the UPDATE grammar, as the
all-lower-case update statement demonstrates. -/
theorem claim_C10_token_casing :
    (∀ (sql : Str) (pos : Nat) (tok : Str) (n : Nat),
        pos < sql.length → scanWords sql pos legalWords = some (tok, n) →
        peekWithLength sql pos = (tok, n) ∧ tok ∈ legalWords ∧
          toUpperStr (slice sql pos (Nat.min sql.length (pos + n))) = tok) ∧
    (∀ (sql : Str) (pos : Nat) (tok : Str) (n : Nat),
        peekIdentifierWithLength sql pos = (tok, n) → tok = slice sql pos (pos + n)) ∧
    (∀ (sql : Str) (pos : Nat) (tok : Str) (n : Nat),
        peekQuotedStringWithLength sql pos = (tok, n) → 0 < n →
        tok = slice sql (pos + 1) (pos + n - 1)) ∧
    (parseFn 60 c10LowerInput).map (fun r => (r.1.Typ, r.1.Updates, r.2)) =
      some (.Update, [("a".toList, "1".toList)], none) := by
  refine ⟨?_, peekIdentifier_verbatim, peekQuoted_verbatim, by decide⟩
  intro sql pos tok n hpos hscan
  obtain ⟨hm, hn, hu⟩ := scanWords_sound sql pos legalWords tok n hscan
  subst hn
  refine ⟨?_, hm, hu⟩
  unfold peekWithLength
  rw [if_neg (by omega), hscan]

/-- Witness for C10: the lower-case input set x yields the upper-cased
vocabulary entry SET; an identifier and a quoted literal are returned as
verbatim slices. -/
theorem claim_C10_token_casing_witness :
    (peekWithLength ("set x".toList) 0 = ("SET".toList, 3) ∧
      "SET".toList ∈ legalWords ∧
      toUpperStr (slice ("set x".toList) 0 (Nat.min ("set x".toList).length (0 + 3))) =
        "SET".toList) ∧
    "ab".toList = slice ("ab,".toList) 0 (0 + 2) ∧
    "a".toList = slice [quoteChar, 'a', quoteChar] (0 + 1) (0 + 3 - 1) :=
  ⟨claim_C10_token_casing.1 ("set x".toList) 0 ("SET".toList) 3 (by decide) (by decide),
   claim_C10_token_casing.2.1 ("ab,".toList) 0 ("ab".toList) 2 (by decide),
   claim_C10_token_casing.2.2.1 [quoteChar, 'a', quoteChar] 0 ("a".toList) 3
     (by decide) (by decide)⟩

end HSDB

